import Mathlib

set_option maxRecDepth 10000

/-!
Shallow embedding of `streamlit_lms_app.py`, a single-file LMS prototype
backed by SQLite. Tables become lists of rows, handlers become pure
functions from a database state (plus the inputs the UI would supply:
fresh uuids, timestamps, form values) to a new database state or an error.
Machine words in the hash are `Nat` reduced modulo `2 ^ 32`.
-/

namespace LMS

/-! ### SHA-256, embedding `hashlib.sha256(pw.encode("utf-8")).hexdigest()` -/

/-- Reduce to a 32-bit word. -/
def w32 (x : Nat) : Nat := x % 4294967296

/-- Rotate a 32-bit word right by `n`. -/
def rotr (n x : Nat) : Nat := w32 ((x >>> n) ||| (x <<< (32 - n)))

/-- The 64 SHA-256 round constants. -/
def kConstants : List Nat := [
  1116352408, 1899447441, 3049323471, 3921009573, 961987163, 1508970993, 2453635748, 2870763221,
  3624381080, 310598401, 607225278, 1426881987, 1925078388, 2162078206, 2614888103, 3248222580,
  3835390401, 4022224774, 264347078, 604807628, 770255983, 1249150122, 1555081692, 1996064986,
  2554220882, 2821834349, 2952996808, 3210313671, 3336571891, 3584528711, 113926993, 338241895,
  666307205, 773529912, 1294757372, 1396182291, 1695183700, 1986661051, 2177026350, 2456956037,
  2730485921, 2820302411, 3259730800, 3345764771, 3516065817, 3600352804, 4094571909, 275423344,
  430227734, 506948616, 659060556, 883997877, 958139571, 1322822218, 1537002063, 1747873779,
  1955562222, 2024104815, 2227730452, 2361852424, 2428436474, 2756734187, 3204031479, 3329325298]

/-- SHA-256 working state: eight 32-bit words. -/
structure Hash8 where
  a : Nat
  b : Nat
  c : Nat
  d : Nat
  e : Nat
  f : Nat
  g : Nat
  h : Nat
deriving DecidableEq

/-- The SHA-256 initial hash value. -/
def initH : Hash8 :=
  ⟨1779033703, 3144134277, 1013904242, 2773480762, 1359893119, 2600822924, 528734635, 1541459225⟩

/-- Pad a byte string per SHA-256: append `0x80`, zeros, and the 64-bit
big-endian bit length, reaching a multiple of 64 bytes. -/
def padBytes (msg : List Nat) : List Nat :=
  let len := msg.length
  let zeros := (119 - len % 64) % 64
  msg ++ [128] ++ List.replicate zeros 0 ++
    (List.range 8).map (fun i => ((8 * len) >>> (8 * (7 - i))) % 256)

/-- Split a byte list into 64-byte chunks; `fuel` bounds the recursion and
is instantiated with the list length, which always suffices. -/
def toChunksFuel : Nat → List Nat → List (List Nat)
  | 0, _ => []
  | _, [] => []
  | fuel + 1, l => l.take 64 :: toChunksFuel fuel (l.drop 64)

/-- Split a byte list into 64-byte chunks. -/
def toChunks (l : List Nat) : List (List Nat) := toChunksFuel l.length l

/-- Pack bytes into big-endian 32-bit words. -/
def bytesToWords : List Nat → List Nat
  | b0 :: b1 :: b2 :: b3 :: rest =>
      ((((b0 <<< 8) ||| b1) <<< 8 ||| b2) <<< 8 ||| b3) :: bytesToWords rest
  | _ => []

/-- Extend the 16 chunk words to the 64-entry message schedule; `fuel` counts
the remaining extension steps (48 from a 16-word start). -/
def extendSchedule (w : List Nat) : Nat → List Nat
  | 0 => w
  | fuel + 1 =>
      let i := w.length
      let s0 := rotr 7 (w.getD (i - 15) 0) ^^^ rotr 18 (w.getD (i - 15) 0) ^^^
        ((w.getD (i - 15) 0) >>> 3)
      let s1 := rotr 17 (w.getD (i - 2) 0) ^^^ rotr 19 (w.getD (i - 2) 0) ^^^
        ((w.getD (i - 2) 0) >>> 10)
      extendSchedule (w ++ [w32 (w.getD (i - 16) 0 + s0 + w.getD (i - 7) 0 + s1)]) fuel

/-- One SHA-256 compression round with round constant `k` and schedule word `w`. -/
def compressStep (st : Hash8) (k w : Nat) : Hash8 :=
  let s1 := rotr 6 st.e ^^^ rotr 11 st.e ^^^ rotr 25 st.e
  let ch := (st.e &&& st.f) ^^^ ((st.e ^^^ 4294967295) &&& st.g)
  let t1 := w32 (st.h + s1 + ch + k + w)
  let s0 := rotr 2 st.a ^^^ rotr 13 st.a ^^^ rotr 22 st.a
  let maj := (st.a &&& st.b) ^^^ (st.a &&& st.c) ^^^ (st.b &&& st.c)
  let t2 := w32 (s0 + maj)
  ⟨w32 (t1 + t2), st.a, st.b, st.c, w32 (st.d + t1), st.e, st.f, st.g⟩

/-- Compress one 64-byte chunk (given as 16 words) into the running hash. -/
def compressChunk (hs : Hash8) (chunkWords : List Nat) : Hash8 :=
  let ws := extendSchedule chunkWords 48
  let st := (kConstants.zip ws).foldl (fun st p => compressStep st p.1 p.2) hs
  ⟨w32 (hs.a + st.a), w32 (hs.b + st.b), w32 (hs.c + st.c), w32 (hs.d + st.d),
   w32 (hs.e + st.e), w32 (hs.f + st.f), w32 (hs.g + st.g), w32 (hs.h + st.h)⟩

/-- SHA-256 digest of a byte string, as eight 32-bit words. -/
def sha256Words (msg : List Nat) : Hash8 :=
  (toChunks (padBytes msg)).foldl (fun hs ch => compressChunk hs (bytesToWords ch)) initH

/-- Lower-case hex digit for a nibble. -/
def hexDigit (n : Nat) : Char := if n < 10 then Char.ofNat (48 + n) else Char.ofNat (87 + n)

/-- Eight lower-case hex digits of a 32-bit word, most significant first. -/
def toHex8 (n : Nat) : String :=
  String.mk ((List.range 8).map (fun i => hexDigit ((n >>> (28 - 4 * i)) % 16)))

/-- Hex digest of a SHA-256 hash, as Python's `.hexdigest()` produces. -/
def sha256Hex (msg : List Nat) : String :=
  let d := sha256Words msg
  toHex8 d.a ++ toHex8 d.b ++ toHex8 d.c ++ toHex8 d.d ++
    toHex8 d.e ++ toHex8 d.f ++ toHex8 d.g ++ toHex8 d.h

/-- UTF-8 encoding of one code point, as `str.encode("utf-8")` emits per char. -/
def utf8EncodeChar (c : Char) : List Nat :=
  let n := c.toNat
  if n < 128 then [n]
  else if n < 2048 then [192 ||| (n >>> 6), 128 ||| (n &&& 63)]
  else if n < 65536 then
    [224 ||| (n >>> 12), 128 ||| ((n >>> 6) &&& 63), 128 ||| (n &&& 63)]
  else
    [240 ||| (n >>> 18), 128 ||| ((n >>> 12) &&& 63),
     128 ||| ((n >>> 6) &&& 63), 128 ||| (n &&& 63)]

/-- UTF-8 bytes of a string, `s.encode("utf-8")`. -/
def utf8Encode (s : String) : List Nat := s.data.flatMap utf8EncodeChar

/-- `hash_password(pw)`: `hashlib.sha256(pw.encode("utf-8")).hexdigest()`. -/
def hash_password (pw : String) : String := sha256Hex (utf8Encode pw)

/-! ### Data model: the SQLite tables of `init_db`, one structure per table -/

/-- A row of the `users` table. -/
structure UserRow where
  id : String
  username : String
  display_name : String
  role : String
  password_hash : String
deriving DecidableEq

/-- A row of the `classes` table. -/
structure ClassRow where
  id : String
  class_name : String
  access_code : String
deriving DecidableEq

/-- A row of the `materials` table; `access_code`, `file_path` and
`external_url` are nullable columns. -/
structure MaterialRow where
  id : String
  class_id : String
  title : String
  access_code : Option String
  file_path : Option String
  external_url : Option String
  mtype : String
  uploaded_by : String
  uploaded_at : String
deriving DecidableEq

/-- A row of the `notifications` table. -/
structure NotificationRow where
  id : String
  class_id : String
  message : String
  created_at : String
deriving DecidableEq

/-- A row of the `tests` table. -/
structure TestRow where
  id : String
  class_id : String
  title : String
  is_pretest : Nat
  created_by : String
  created_at : String
deriving DecidableEq

/-- A row of the `questions` table. -/
structure QuestionRow where
  id : String
  test_id : String
  text : String
  option_a : String
  option_b : String
  option_c : String
  option_d : String
  option_e : String
  correct_option : String
deriving DecidableEq

/-- A row of the `attempts` table; the REAL `score` column is modelled as a
rational. -/
structure AttemptRow where
  id : String
  test_id : String
  user_id : String
  submitted_at : String
  score : ℚ
deriving DecidableEq

/-- A row of the `answers` table. -/
structure AnswerRow where
  id : String
  attempt_id : String
  question_id : String
  chosen_option : String
deriving DecidableEq

/-- The database state: the tables of `lms.db` the claims touch. -/
structure DB where
  users : List UserRow
  classes : List ClassRow
  materials : List MaterialRow
  notifications : List NotificationRow
  tests : List TestRow
  questions : List QuestionRow
  attempts : List AttemptRow
  answers : List AnswerRow
deriving DecidableEq

/-- The empty database produced by `init_db` on a fresh file. -/
def DB.empty : DB := ⟨[], [], [], [], [], [], [], []⟩

/-- The error taxonomy of the spec; each constructor labels one of the
rejection messages the handlers show (`"Username sudah dipakai"`,
`"Login gagal"`, empty-field or no-question rejections, a row lookup
returning `None` where the code would then raise). -/
inductive LmsError where
  | DuplicateUsername
  | InvalidCredentials
  | ValidationError
  | NotFound
deriving DecidableEq

/-! ### Identity and access operations -/

/-- The `Daftar` (register) handler. Guards on empty username/password
(`"Username dan password diperlukan"`), then runs the INSERT; the
`UNIQUE` constraint on `users.username` makes the INSERT raise
`sqlite3.IntegrityError` when the username is taken, caught and shown as
`"Username sudah dipakai"`, leaving the table unchanged. On success the
row stores `hash_password(pw)`, never the plaintext. -/
def register (db : DB) (uid username display role pw : String) :
    DB × Except LmsError UserRow :=
  if username = "" ∨ pw = "" then (db, .error .ValidationError)
  else if db.users.any (fun u => u.username == username) then
    (db, .error .DuplicateUsername)
  else
    let row : UserRow := ⟨uid, username, display, role, hash_password pw⟩
    ({db with users := db.users ++ [row]}, .ok row)

/-- The `Login` handler: fetch the row with the given username
(`SELECT * FROM users WHERE username=?` + `fetchone`), succeed iff a row
exists and its `password_hash` equals `hash_password` of the supplied
password; otherwise `"Login gagal"`. -/
def authenticate (db : DB) (username pw : String) : Except LmsError UserRow :=
  match db.users.find? (fun u => u.username == username) with
  | some row =>
      if row.password_hash == hash_password pw then .ok row
      else .error .InvalidCredentials
  | none => .error .InvalidCredentials

/-- Python's `str.strip()` on ASCII whitespace: drop whitespace from both
ends (the handlers only use it to test nonemptiness of form fields). -/
def pyStrip (s : String) : String :=
  String.mk (((s.data.dropWhile Char.isWhitespace).reverse.dropWhile Char.isWhitespace).reverse)

/-- The `Buat Kelas` handler: the INSERT runs only when both the name and
the access code are nonempty after stripping. -/
def createClass (db : DB) (cid cname acode : String) : Option (DB × ClassRow) :=
  if pyStrip cname ≠ "" ∧ pyStrip acode ≠ "" then
    let row : ClassRow := ⟨cid, cname, acode⟩
    some ({db with classes := db.classes ++ [row]}, row)
  else none

/-- The `Masuk` (enter class) handler: the supplied code is read from a text
input; Python's `if code:` skips empty input, and a nonempty code grants
entry iff it equals the class's stored `access_code`. -/
def checkClassAccess (cl : ClassRow) (code : String) : Bool :=
  code ≠ "" && code == cl.access_code

/-- Python truthiness of a nullable TEXT column: `NULL` and `""` are falsy. -/
def optTruthy : Option String → Bool
  | none => false
  | some s => s ≠ ""

/-- The material gate in the `Materi` tab: when `m['access_code']` is truthy
the content is shown iff the supplied code equals it; otherwise the
content is shown unconditionally. -/
def checkMaterialAccess (m : MaterialRow) (code : String) : Bool :=
  if optTruthy m.access_code then code == m.access_code.getD "" else true

/-! ### Assessment engine -/

/-- `SELECT * FROM questions WHERE test_id=?`: the questions of a test, in
table order. -/
def listQuestions (db : DB) (testId : String) : List QuestionRow :=
  db.questions.filter (fun q => q.test_id == testId)

/-- The per-answer lookups of the scoring loop:
`SELECT * FROM questions WHERE id=?` + `fetchone` for each submitted
`(question id, chosen option)` pair. A missing row makes the Python code
raise on `qrow['correct_option']`; that failure is surfaced as `none`. -/
def lookupAnswers (qtable : List QuestionRow) :
    List (String × String) → Option (List (QuestionRow × String))
  | [] => some []
  | a :: rest =>
      match qtable.find? (fun q => q.id == a.1) with
      | some q => (lookupAnswers qtable rest).map (fun l => (q, a.2) :: l)
      | none => none

/-- The answer rows the submit loop inserts: one INSERT per submitted
`(question id, chosen option)` pair, with a fresh id from `answerIds`,
linked to the attempt. -/
def answerRowsOf (attemptId : String) (answerIds : List String)
    (answers : List (String × String)) : List AnswerRow :=
  (answerIds.zip answers).map (fun p => AnswerRow.mk p.1 attemptId p.2.1 p.2.2)

/-- The `Kirim Jawaban` handler (SubmitAttempt). With no questions the test
page shows only the `"Belum ada soal"` warning and the submit branch is
unreachable, so the submission is rejected. Otherwise: count the
submitted answers whose chosen option equals the looked-up question's
`correct_option`, set `score_val = (score / len(qs)) * 100`, INSERT the
attempt, one answer row per submitted pair (with the fresh ids
`answerIds`), and the notification
`"{display_name} selesai {title}"`. -/
def submitAttempt (db : DB) (classId : String) (t : TestRow) (user : UserRow)
    (attemptId submittedAt : String) (answerIds : List String)
    (notifId notifTime : String) (answers : List (String × String)) :
    Except LmsError (DB × AttemptRow) :=
  let qs := listQuestions db t.id
  if qs.isEmpty then .error .ValidationError
  else
    match lookupAnswers db.questions answers with
    | none => .error .NotFound
    | some qas =>
      let score := (qas.filter (fun p => p.1.correct_option == p.2)).length
      let score_val : ℚ := ((score : ℚ) / (qs.length : ℚ)) * 100
      let att : AttemptRow := ⟨attemptId, t.id, user.id, submittedAt, score_val⟩
      let ansRows := answerRowsOf attemptId answerIds answers
      let notif : NotificationRow :=
        ⟨notifId, classId, user.display_name ++ " selesai " ++ t.title, notifTime⟩
      .ok ({db with
              attempts := db.attempts ++ [att],
              answers := db.answers ++ ansRows,
              notifications := db.notifications ++ [notif]}, att)

/-- The score of a submission result, when it succeeded. -/
def submitScore (r : Except LmsError (DB × AttemptRow)) : Option ℚ :=
  match r with
  | .ok p => some p.2.score
  | .error _ => none

/-- The attempts table after a submission result, when it succeeded. -/
def attemptsAfter (r : Except LmsError (DB × AttemptRow)) : Option (List AttemptRow) :=
  match r with
  | .ok p => some p.1.attempts
  | .error _ => none

/-- The answers table after a submission result, when it succeeded. -/
def answersAfter (r : Except LmsError (DB × AttemptRow)) : Option (List AnswerRow) :=
  match r with
  | .ok p => some p.1.answers
  | .error _ => none

/-- The notifications table after a submission result, when it succeeded. -/
def notificationsAfter (r : Except LmsError (DB × AttemptRow)) :
    Option (List NotificationRow) :=
  match r with
  | .ok p => some p.1.notifications
  | .error _ => none

/-- The count the spec's scoring rule names: how many submitted answers have
a chosen option equal to their question's correct option. -/
def specCorrectCount (qtable : List QuestionRow) (answers : List (String × String)) : Nat :=
  (answers.filter (fun a =>
    match qtable.find? (fun q => q.id == a.1) with
    | some q => q.correct_option == a.2
    | none => false)).length

/-! ### Notifications -/

/-- Lexicographic `≤` on code-point lists; for UTF-8 data this is exactly
SQLite's byte-wise BINARY collation on TEXT. -/
def lexLeChars : List Char → List Char → Bool
  | [], _ => true
  | _ :: _, [] => false
  | a :: as, b :: bs =>
      if a.toNat < b.toNat then true
      else if b.toNat < a.toNat then false
      else lexLeChars as bs

/-- SQLite TEXT comparison: lexicographic on the characters. -/
def strLe (a b : String) : Bool := lexLeChars a.data b.data

/-- Insert a notification into a list sorted by `created_at` descending. -/
def insertDesc (n : NotificationRow) : List NotificationRow → List NotificationRow
  | [] => [n]
  | m :: ms =>
      if strLe m.created_at n.created_at then n :: m :: ms else m :: insertDesc n ms

/-- Sort notifications by `created_at` descending, as
`ORDER BY created_at DESC` does. -/
def sortDescByCreated : List NotificationRow → List NotificationRow
  | [] => []
  | n :: ns => insertDesc n (sortDescByCreated ns)

/-- The notifications query:
`SELECT * FROM notifications WHERE class_id=? ORDER BY created_at DESC LIMIT lim`
(the panel uses `lim = 50`). -/
def listNotifs (db : DB) (classId : String) (lim : Nat) : List NotificationRow :=
  (sortDescByCreated (db.notifications.filter (fun r => r.class_id == classId))).take lim

/-! ### Concrete fixtures used by the witnesses -/

/-- A question row with given id, test id and correct option. -/
def exQ (i t co : String) : QuestionRow := ⟨i, t, "soal", "a", "b", "c", "d", "e", co⟩

/-- A four-question test, correct answers A, B, C, D. -/
def exTest4 : TestRow := ⟨"t1", "c1", "Quiz", 1, "u0", "now"⟩

/-- Database holding `exTest4` and its four questions. -/
def exDb4 : DB :=
  { DB.empty with
      tests := [exTest4],
      questions := [exQ "q1" "t1" "A", exQ "q2" "t1" "B", exQ "q3" "t1" "C", exQ "q4" "t1" "D"] }

/-- A student user row. -/
def exStudent : UserRow := ⟨"u1", "s1", "s1", "student", "x"⟩

/-- The submission {A, B, X, D} of the spec's scoring example. -/
def exAnswers4 : List (String × String) := [("q1", "A"), ("q2", "B"), ("q3", "X"), ("q4", "D")]

/-- The test "Pretest A" of the end-to-end example. -/
def exTestA : TestRow := ⟨"tA", "cB", "Pretest A", 1, "t1id", "now"⟩

/-- Database holding "Pretest A" with Q1 (correct A) and Q2 (correct B). -/
def exDb2q : DB :=
  { DB.empty with tests := [exTestA], questions := [exQ "Q1" "tA" "A", exQ "Q2" "tA" "B"] }

/-- The end-to-end submission {Q1: A, Q2: C}. -/
def exAnswersA : List (String × String) := [("Q1", "A"), ("Q2", "C")]

/-- A test with zero questions. -/
def exTest9 : TestRow := ⟨"t9", "c1", "Empty", 0, "u0", "now"⟩

/-- Database holding only the zero-question test. -/
def exDbNoQ : DB := { DB.empty with tests := [exTest9] }

/-- Three notifications, two in class c1, at increasing timestamps. -/
def exNotifA : NotificationRow := ⟨"n1", "c1", "m1", "2026-01-01T10:00:00"⟩

/-- Second notification of the fixture, later than the first. -/
def exNotifB : NotificationRow := ⟨"n2", "c1", "m2", "2026-01-01T11:00:00"⟩

/-- Third notification of the fixture, in another class. -/
def exNotifC : NotificationRow := ⟨"n3", "c2", "m3", "2026-01-01T12:00:00"⟩

/-- Database holding the three notification fixtures. -/
def exDb9 : DB := { DB.empty with notifications := [exNotifA, exNotifB, exNotifC] }

/-- A material with no access code. -/
def exMatOpen : MaterialRow :=
  ⟨"m1", "c1", "Open", none, none, some "http", "iframe", "u0", "now"⟩

/-- A material protected by the code MAT1. -/
def exMatCoded : MaterialRow :=
  ⟨"m2", "c1", "Locked", some "MAT1", some "f.pdf", none, "pdf", "u0", "now"⟩

end LMS

namespace LMS

/-! ### Helper lemmas -/

theorem lookupAnswers_total (qtable : List QuestionRow) (answers : List (String × String))
    (h : ∀ a ∈ answers, (qtable.find? (fun q => q.id == a.1)).isSome) :
    ∃ qas, lookupAnswers qtable answers = some qas := by
  induction answers with
  | nil => exact ⟨[], rfl⟩
  | cons a rest ih =>
      have ha := h a (List.mem_cons_self a rest)
      obtain ⟨q, hq⟩ := Option.isSome_iff_exists.mp ha
      obtain ⟨qas, hqas⟩ := ih (fun x hx => h x (List.mem_cons_of_mem a hx))
      exact ⟨(q, a.2) :: qas, by simp [lookupAnswers, hq, hqas]⟩

theorem lookupAnswers_count (qtable : List QuestionRow) :
    ∀ (answers : List (String × String)) (qas : List (QuestionRow × String)),
    lookupAnswers qtable answers = some qas →
    (qas.filter (fun p => p.1.correct_option == p.2)).length = specCorrectCount qtable answers := by
  intro answers
  induction answers with
  | nil =>
      intro qas h
      simp only [lookupAnswers, Option.some.injEq] at h
      subst h
      simp [specCorrectCount]
  | cons a rest ih =>
      intro qas h
      simp only [lookupAnswers] at h
      cases hf : qtable.find? (fun q => q.id == a.1) with
      | none => rw [hf] at h; simp at h
      | some q =>
          rw [hf] at h
          cases hr : lookupAnswers qtable rest with
          | none => rw [hr] at h; simp at h
          | some l =>
              rw [hr] at h
              simp only [Option.map_some', Option.some.injEq] at h
              subst h
              simp only [specCorrectCount, List.filter_cons, hf] at *
              by_cases hc : (q.correct_option == a.2) = true
              · simp only [hc, if_true, List.length_cons]
                rw [ih l hr]
              · simp only [Bool.not_eq_true] at hc
                simp only [hc, Bool.false_eq_true, if_false]
                rw [ih l hr]

theorem lookupAnswers_length (qtable : List QuestionRow) :
    ∀ (answers : List (String × String)) (qas : List (QuestionRow × String)),
    lookupAnswers qtable answers = some qas → qas.length = answers.length := by
  intro answers
  induction answers with
  | nil =>
      intro qas h
      simp only [lookupAnswers, Option.some.injEq] at h
      subst h
      rfl
  | cons a rest ih =>
      intro qas h
      simp only [lookupAnswers] at h
      cases hf : qtable.find? (fun q => q.id == a.1) with
      | none => rw [hf] at h; simp at h
      | some q =>
          rw [hf] at h
          cases hr : lookupAnswers qtable rest with
          | none => rw [hr] at h; simp at h
          | some l =>
              rw [hr] at h
              simp only [Option.map_some', Option.some.injEq] at h
              subst h
              simp [ih l hr]

/-! ### Claim theorems -/

/-- C1: for every test with at least one question and every submitted answer
mapping whose question ids resolve, `submitAttempt` persists an attempt
whose score is 100 times the count of answers whose chosen option equals
the question's correct option, divided by the test's question count. -/
theorem C1_submit_score_formula (db : DB) (classId : String) (t : TestRow) (user : UserRow)
    (attemptId submittedAt : String) (answerIds : List String) (notifId notifTime : String)
    (answers : List (String × String))
    (hq : listQuestions db t.id ≠ [])
    (hfind : ∀ a ∈ answers, (db.questions.find? (fun q => q.id == a.1)).isSome) :
    submitScore (submitAttempt db classId t user attemptId submittedAt answerIds
        notifId notifTime answers)
      = some (100 * (specCorrectCount db.questions answers : ℚ) /
          ((listQuestions db t.id).length : ℚ)) ∧
    attemptsAfter (submitAttempt db classId t user attemptId submittedAt answerIds
        notifId notifTime answers)
      = some (db.attempts ++ [⟨attemptId, t.id, user.id, submittedAt,
          100 * (specCorrectCount db.questions answers : ℚ) /
            ((listQuestions db t.id).length : ℚ)⟩]) := by
  obtain ⟨qas, hqas⟩ := lookupAnswers_total db.questions answers hfind
  have hcnt := lookupAnswers_count db.questions answers qas hqas
  have hne : (listQuestions db t.id).isEmpty = false := by
    simpa [List.isEmpty_iff] using hq
  have hscore : ((((qas.filter (fun p => p.1.correct_option == p.2)).length : ℚ)) /
      ((listQuestions db t.id).length : ℚ)) * 100
      = 100 * (specCorrectCount db.questions answers : ℚ) /
        ((listQuestions db t.id).length : ℚ) := by
    rw [hcnt]
    ring
  constructor
  · simp only [submitAttempt, hne, Bool.false_eq_true, if_false, hqas, submitScore]
    rw [hscore]
  · simp only [submitAttempt, hne, Bool.false_eq_true, if_false, hqas, attemptsAfter]
    rw [hscore]

/-- C2: for a test with zero questions the submission path is rejected (the
page shows only the no-questions warning), no division happens and no
attempt row is created. -/
theorem C2_zero_questions_rejected (db : DB) (classId : String) (t : TestRow) (user : UserRow)
    (attemptId submittedAt : String) (answerIds : List String) (notifId notifTime : String)
    (answers : List (String × String))
    (hq : listQuestions db t.id = []) :
    submitAttempt db classId t user attemptId submittedAt answerIds notifId notifTime answers
      = .error .ValidationError ∧
    attemptsAfter (submitAttempt db classId t user attemptId submittedAt answerIds
        notifId notifTime answers) = none := by
  have hemp : (listQuestions db t.id).isEmpty = true := by simp [hq]
  constructor
  · simp [submitAttempt, hemp]
  · simp [submitAttempt, hemp, attemptsAfter]

/-- C3: on a test with at least one question, a submission whose answer
mapping omits questions still succeeds (omitted questions simply score
nothing), and the fully empty submission scores exactly 0. -/
theorem C3_omitted_answers_score_zero (db : DB) (classId : String) (t : TestRow) (user : UserRow)
    (attemptId submittedAt : String) (answerIds : List String) (notifId notifTime : String)
    (hq : listQuestions db t.id ≠ []) :
    (∀ answers : List (String × String),
      (∀ a ∈ answers, (db.questions.find? (fun q => q.id == a.1)).isSome) →
      (submitScore (submitAttempt db classId t user attemptId submittedAt answerIds
          notifId notifTime answers)).isSome) ∧
    submitScore (submitAttempt db classId t user attemptId submittedAt answerIds
        notifId notifTime []) = some 0 := by
  have hne : (listQuestions db t.id).isEmpty = false := by
    simpa [List.isEmpty_iff] using hq
  constructor
  · intro answers hfind
    obtain ⟨qas, hqas⟩ := lookupAnswers_total db.questions answers hfind
    simp [submitAttempt, hne, hqas, submitScore]
  · have h0 : lookupAnswers db.questions [] = some [] := rfl
    simp [submitAttempt, hne, h0, submitScore]

/-- C1 witness: the 4-question test with correct answers A, B, C, D and the
submission {A, B, X, D} scores exactly 75. -/
theorem C1_witness :
    submitScore (submitAttempt exDb4 "c1" exTest4 exStudent "att1" "ts"
        ["a1", "a2", "a3", "a4"] "n1" "ts" exAnswers4) = some 75 := by
  have h := C1_submit_score_formula exDb4 "c1" exTest4 exStudent "att1" "ts"
    ["a1", "a2", "a3", "a4"] "n1" "ts" exAnswers4 (by decide) (by decide)
  rw [h.1]
  have h3 : specCorrectCount exDb4.questions exAnswers4 = 3 := by decide
  have h4 : (listQuestions exDb4 exTest4.id).length = 4 := by decide
  rw [h3, h4]
  norm_num

/-- C2 witness: submitting on the zero-question test is rejected. -/
theorem C2_witness :
    submitAttempt exDbNoQ "c1" exTest9 exStudent "att1" "ts" [] "n1" "ts" []
      = .error .ValidationError :=
  (C2_zero_questions_rejected exDbNoQ "c1" exTest9 exStudent "att1" "ts" [] "n1" "ts" []
    (by decide)).1

/-- C3 witness: a submission with no answers at all scores 0, not an error. -/
theorem C3_witness :
    submitScore (submitAttempt exDb4 "c1" exTest4 exStudent "att1" "ts" [] "n1" "ts" [])
      = some 0 :=
  (C3_omitted_answers_score_zero exDb4 "c1" exTest4 exStudent "att1" "ts" [] "n1" "ts"
    (by decide)).2

/-- Destructure a successful `register`: both guards passed, the row stores
the hash and the table grew by exactly that row. -/
theorem register_ok_elim (db db1 : DB) (uid un dn role pw : String) (row : UserRow)
    (h : register db uid un dn role pw = (db1, .ok row)) :
    un ≠ "" ∧ pw ≠ "" ∧ db.users.any (fun u => u.username == un) = false ∧
    row = ⟨uid, un, dn, role, hash_password pw⟩ ∧
    db1 = {db with users := db.users ++ [row]} := by
  unfold register at h
  split at h
  · exact absurd h (by simp)
  · split at h
    · exact absurd h (by simp)
    · rename_i hne hany
      injection h with hdb hres
      injection hres with hrow
      push_neg at hne
      refine ⟨hne.1, hne.2, by simpa using hany, hrow.symm, ?_⟩
      rw [← hdb, hrow]

/-- C4: after a successful registration, a second registration with the same
username (and a nonempty password) hits the UNIQUE constraint: it fails
with DuplicateUsername, leaves the store untouched, and the first row is
still present. -/
theorem C4_duplicate_username (db db1 : DB)
    (uid1 un dn1 role1 pw1 uid2 dn2 role2 pw2 : String) (row1 : UserRow)
    (h1 : register db uid1 un dn1 role1 pw1 = (db1, .ok row1))
    (hpw2 : pw2 ≠ "") :
    register db1 uid2 un dn2 role2 pw2 = (db1, .error .DuplicateUsername) ∧
    row1 ∈ db1.users := by
  obtain ⟨hun, hpw, hany, hrow, hdb1⟩ := register_ok_elim db db1 uid1 un dn1 role1 pw1 row1 h1
  subst hdb1
  constructor
  · have hany1 : (db.users ++ [row1]).any (fun u => u.username == un) = true := by
      rw [List.any_append]
      have : row1.username == un := by rw [hrow]; simp
      simp [this]
    simp [register, hun, hpw2, hany1]
  · simp

/-- C5: for a registered user, authentication hashes the supplied password
and compares with the stored hash: the registration password succeeds,
and a password is accepted exactly when its hash equals the stored one,
so any password with a different hash is rejected. -/
theorem C5_authenticate_compares_hashes (db db1 : DB) (uid un dn role pw : String)
    (row : UserRow)
    (hreg : register db uid un dn role pw = (db1, .ok row)) :
    authenticate db1 un pw = .ok row ∧
    ∀ pw2 : String,
      (authenticate db1 un pw2 = .ok row ↔ hash_password pw2 = hash_password pw) ∧
      (hash_password pw2 ≠ hash_password pw →
        authenticate db1 un pw2 = .error .InvalidCredentials) := by
  obtain ⟨hun, hpw, hany, hrow, hdb1⟩ := register_ok_elim db db1 uid un dn role pw row hreg
  have hpt : (fun u : UserRow => u.username == un) row = true := by rw [hrow]; simp
  have hfind : db1.users.find? (fun u => u.username == un) = some row := by
    subst hdb1
    rw [List.find?_append]
    have hnone : db.users.find? (fun u => u.username == un) = none := by
      rw [List.find?_eq_none]
      intro x hx
      have hx2 : ¬ x.username = un := by
        have := List.any_eq_false.mp hany
        simpa using this x hx
      simp [hx2]
    rw [hnone, Option.none_or]
    exact List.find?_cons_of_pos _ hpt
  have hhash : row.password_hash = hash_password pw := by rw [hrow]
  refine ⟨?_, fun pw2 => ⟨?_, ?_⟩⟩
  · simp [authenticate, hfind, hhash]
  · simp only [authenticate, hfind]
    rw [hhash]
    by_cases hc : hash_password pw2 = hash_password pw
    · simp [hc]
    · have hf : (hash_password pw == hash_password pw2) = false := by
        rw [beq_eq_false_iff_ne]
        exact fun h' => hc h'.symm
      simp [hf, hc]
  · intro hne
    simp only [authenticate, hfind]
    rw [hhash]
    have hf : (hash_password pw == hash_password pw2) = false := by
      rw [beq_eq_false_iff_ne]
      exact fun h' => hne h'.symm
    simp [hf]

/-- C10: the stored hash is a deterministic, unsalted function of the
password alone (so equal passwords give equal stored hashes across any
two registrations), and the authentication comparison depends only on
the stored hash and the supplied password. -/
theorem C10_hash_deterministic :
    (∀ (db : DB) (uid un dn role pw : String) (db2 : DB) (row : UserRow),
      register db uid un dn role pw = (db2, .ok row) →
      row.password_hash = hash_password pw) ∧
    (∀ (dbA dbB : DB) (uidA unA dnA roleA uidB unB dnB roleB pw : String)
        (dbA2 dbB2 : DB) (rowA rowB : UserRow),
      register dbA uidA unA dnA roleA pw = (dbA2, .ok rowA) →
      register dbB uidB unB dnB roleB pw = (dbB2, .ok rowB) →
      rowA.password_hash = rowB.password_hash) ∧
    (∀ (u1 u2 : UserRow) (pw : String), u1.password_hash = u2.password_hash →
      (u1.password_hash == hash_password pw) = (u2.password_hash == hash_password pw)) ∧
    (∀ (db : DB) (un pw : String) (row : UserRow),
      db.users.find? (fun u => u.username == un) = some row →
      authenticate db un pw =
        if row.password_hash == hash_password pw then .ok row
        else .error .InvalidCredentials) := by
  have hstore : ∀ (db : DB) (uid un dn role pw : String) (db2 : DB) (row : UserRow),
      register db uid un dn role pw = (db2, .ok row) →
      row.password_hash = hash_password pw := by
    intro db uid un dn role pw db2 row h
    obtain ⟨_, _, _, hrow, _⟩ := register_ok_elim db db2 uid un dn role pw row h
    rw [hrow]
  refine ⟨hstore, ?_, ?_, ?_⟩
  · intro dbA dbB uidA unA dnA roleA uidB unB dnB roleB pw dbA2 dbB2 rowA rowB hA hB
    rw [hstore dbA uidA unA dnA roleA pw dbA2 rowA hA,
        hstore dbB uidB unB dnB roleB pw dbB2 rowB hB]
  · intro u1 u2 pw h
    rw [h]
  · intro db un pw row hfind
    rw [authenticate, hfind]

/-- C4 witness: registering "alice" twice; the second call fails with
DuplicateUsername and the first row is still stored. -/
theorem C4_witness :
    register (register DB.empty "u1" "alice" "Alice" "student" "pw").1
        "u2" "alice" "Bob" "teacher" "pw2"
      = ((register DB.empty "u1" "alice" "Alice" "student" "pw").1,
          .error .DuplicateUsername) ∧
    (⟨"u1", "alice", "Alice", "student", hash_password "pw"⟩ : UserRow)
      ∈ (register DB.empty "u1" "alice" "Alice" "student" "pw").1.users := by
  have h1 : register DB.empty "u1" "alice" "Alice" "student" "pw"
      = ((register DB.empty "u1" "alice" "Alice" "student" "pw").1,
          .ok ⟨"u1", "alice", "Alice", "student", hash_password "pw"⟩) := rfl
  exact C4_duplicate_username DB.empty _ "u1" "alice" "Alice" "student" "pw"
    "u2" "Bob" "teacher" "pw2" _ h1 (by decide)

/-- C5 witness: for registered "alice"/"hunter2" the correct password
authenticates, and a wrong digest-looking string is rejected. -/
theorem C5_witness :
    authenticate (register DB.empty "u1" "alice" "Alice" "student" "hunter2").1
        "alice" "hunter2"
      = .ok ⟨"u1", "alice", "Alice", "student", hash_password "hunter2"⟩ ∧
    authenticate (register DB.empty "u1" "alice" "Alice" "student" "hunter2").1
        "alice" "f52fbd32b2b3b86ff88ef6c490628285f482af15ddcb29541f94bcf526a3f6c7"
      = .error .InvalidCredentials := by
  have h1 : register DB.empty "u1" "alice" "Alice" "student" "hunter2"
      = ((register DB.empty "u1" "alice" "Alice" "student" "hunter2").1,
          .ok ⟨"u1", "alice", "Alice", "student", hash_password "hunter2"⟩) := rfl
  have h := C5_authenticate_compares_hashes DB.empty _ "u1" "alice" "Alice" "student"
    "hunter2" _ h1
  exact ⟨h.1,
    (h.2 "f52fbd32b2b3b86ff88ef6c490628285f482af15ddcb29541f94bcf526a3f6c7").2 (by decide)⟩

/-- C10 witness: two users registered with the same password "pw" end up with
identical stored password hashes. -/
theorem C10_witness :
    (⟨"u1", "alice", "Alice", "student", hash_password "pw"⟩ : UserRow).password_hash
      = (⟨"u2", "bob", "Bob", "teacher", hash_password "pw"⟩ : UserRow).password_hash :=
  C10_hash_deterministic.2.1 DB.empty DB.empty "u1" "alice" "Alice" "student"
    "u2" "bob" "Bob" "teacher" "pw"
    (register DB.empty "u1" "alice" "Alice" "student" "pw").1
    (register DB.empty "u2" "bob" "Bob" "teacher" "pw").1
    ⟨"u1", "alice", "Alice", "student", hash_password "pw"⟩
    ⟨"u2", "bob", "Bob", "teacher", hash_password "pw"⟩ rfl rfl

/-- C6: for a class actually created by the create-class handler, entry is
granted exactly when the supplied code equals the stored access code. -/
theorem C6_class_access_exact_match (db : DB) (cid cname acode : String) (db2 : DB)
    (cl : ClassRow)
    (h : createClass db cid cname acode = some (db2, cl)) (code : String) :
    checkClassAccess cl code = true ↔ code = cl.access_code := by
  unfold createClass at h
  split at h
  · rename_i hcond
    injection h with h'
    injection h' with hdb hcl
    have hacode : cl.access_code = acode := by rw [← hcl]
    have hne : acode ≠ "" := by
      intro he
      subst he
      exact hcond.2 rfl
    constructor
    · intro hacc
      simp only [checkClassAccess, Bool.and_eq_true, decide_eq_true_eq, beq_iff_eq] at hacc
      exact hacc.2
    · intro he
      subst he
      have h1 : cl.access_code ≠ "" := by rw [hacode]; exact hne
      simp [checkClassAccess, h1]
  · exact absurd h (by simp)

/-- C6 witness: the class created with code KLS2025 grants entry for KLS2025
and denies kls2025 and the empty string. -/
theorem C6_witness :
    checkClassAccess ⟨"c1", "Bio", "KLS2025"⟩ "KLS2025" = true ∧
    checkClassAccess ⟨"c1", "Bio", "KLS2025"⟩ "kls2025" = false ∧
    checkClassAccess ⟨"c1", "Bio", "KLS2025"⟩ "" = false := by
  have h := fun code => C6_class_access_exact_match DB.empty "c1" "Bio" "KLS2025"
    {DB.empty with classes := [⟨"c1", "Bio", "KLS2025"⟩]} ⟨"c1", "Bio", "KLS2025"⟩ rfl code
  refine ⟨(h "KLS2025").mpr rfl, ?_, ?_⟩
  · rw [Bool.eq_false_iff]
    intro hb
    exact absurd ((h "kls2025").mp hb) (by decide)
  · rw [Bool.eq_false_iff]
    intro hb
    exact absurd ((h "").mp hb) (by decide)

/-- C7: a material with no (truthy) access code is shown unconditionally;
a material with a nonempty code is shown exactly when the supplied code
equals it. -/
theorem C7_material_access (m : MaterialRow) (code : String) :
    (optTruthy m.access_code = false → checkMaterialAccess m code = true) ∧
    (∀ s : String, m.access_code = some s → s ≠ "" →
      (checkMaterialAccess m code = true ↔ code = s)) := by
  constructor
  · intro h
    simp [checkMaterialAccess, h]
  · intro s hs hne
    simp [checkMaterialAccess, optTruthy, hs, hne]

/-- C7 witness: the open material is shown with no code; the MAT1-protected
material is shown for MAT1 and hidden for mat1. -/
theorem C7_witness :
    checkMaterialAccess exMatOpen "" = true ∧
    checkMaterialAccess exMatCoded "MAT1" = true ∧
    checkMaterialAccess exMatCoded "mat1" = false := by
  refine ⟨(C7_material_access exMatOpen "").1 (by decide),
    ((C7_material_access exMatCoded "MAT1").2 "MAT1" rfl (by decide)).mpr rfl, ?_⟩
  rw [Bool.eq_false_iff]
  intro hb
  exact absurd (((C7_material_access exMatCoded "mat1").2 "MAT1" rfl (by decide)).mp hb)
    (by decide)

/-- C8 counterexample: in the end-to-end example (student "s1" submits on
test "Pretest A") the handler appends the notification
"s1 selesai Pretest A" — the Indonesian template of the code — and no
notification reading "s1 completed Pretest A" exists. -/
theorem C8_counterexample :
    notificationsAfter (submitAttempt exDb2q "cB" exTestA exStudent "att1" "ts"
        ["a1", "a2"] "n1" "ts2" exAnswersA)
      = some [⟨"n1", "cB", "s1 selesai Pretest A", "ts2"⟩] ∧
    "s1 selesai Pretest A" ≠ "s1 completed Pretest A" := by
  constructor
  · decide
  · decide

/-- C8 amended: every successful submission on a test with questions, with
one answer per question of the test, persists exactly one answer row per
question (recording its chosen option, linked to the new attempt) and
then appends the notification `display_name ++ " selesai " ++ title`
("s1 selesai Pretest A" in the example), not an English "completed"
message. -/
theorem C8_answers_and_notification (db : DB) (classId : String) (t : TestRow)
    (user : UserRow) (attemptId submittedAt : String) (answerIds : List String)
    (notifId notifTime : String) (answers : List (String × String))
    (hq : listQuestions db t.id ≠ [])
    (hcover : answers.map Prod.fst = (listQuestions db t.id).map QuestionRow.id)
    (hlen : answerIds.length = answers.length) :
    answersAfter (submitAttempt db classId t user attemptId submittedAt answerIds
        notifId notifTime answers)
      = some (db.answers ++ answerRowsOf attemptId answerIds answers) ∧
    (answerRowsOf attemptId answerIds answers).length = (listQuestions db t.id).length ∧
    (answerRowsOf attemptId answerIds answers).map
        (fun r => (r.question_id, r.chosen_option)) = answers ∧
    (∀ r ∈ answerRowsOf attemptId answerIds answers, r.attempt_id = attemptId) ∧
    notificationsAfter (submitAttempt db classId t user attemptId submittedAt answerIds
        notifId notifTime answers)
      = some (db.notifications ++
          [⟨notifId, classId, user.display_name ++ " selesai " ++ t.title, notifTime⟩]) := by
  have hfind : ∀ a ∈ answers, (db.questions.find? (fun q => q.id == a.1)).isSome := by
    intro a ha
    have hmem : a.1 ∈ (listQuestions db t.id).map QuestionRow.id := by
      rw [← hcover]
      exact List.mem_map_of_mem Prod.fst ha
    obtain ⟨q, hqmem, hqid⟩ := List.mem_map.mp hmem
    have hq2 : q ∈ db.questions := List.mem_of_mem_filter hqmem
    rw [List.find?_isSome]
    exact ⟨q, hq2, by simp [hqid]⟩
  obtain ⟨qas, hqas⟩ := lookupAnswers_total db.questions answers hfind
  have hne : (listQuestions db t.id).isEmpty = false := by
    simpa [List.isEmpty_iff] using hq
  have hanslen : answers.length = (listQuestions db t.id).length := by
    have := congrArg List.length hcover
    simpa using this
  refine ⟨?_, ?_, ?_, ?_, ?_⟩
  · simp only [submitAttempt, hne, Bool.false_eq_true, if_false, hqas, answersAfter]
  · rw [answerRowsOf, List.length_map, List.length_zip _ _, hlen, Nat.min_self, hanslen]
  · simp only [answerRowsOf, List.map_map]
    have hfun : ((fun r : AnswerRow => (r.question_id, r.chosen_option)) ∘
        (fun p : String × String × String => AnswerRow.mk p.1 attemptId p.2.1 p.2.2))
        = Prod.snd := by
      funext p
      simp
    rw [hfun]
    exact List.map_snd_zip _ _ (le_of_eq hlen.symm)
  · intro r hr
    simp only [answerRowsOf, List.mem_map] at hr
    obtain ⟨p, hp1, hp2⟩ := hr
    rw [← hp2]
  · simp only [submitAttempt, hne, Bool.false_eq_true, if_false, hqas, notificationsAfter]

/-- C8 witness: the end-to-end submission {Q1: A, Q2: C} persists the two
answer rows and the "s1 selesai Pretest A" notification. -/
theorem C8_witness :
    answersAfter (submitAttempt exDb2q "cB" exTestA exStudent "att1" "ts"
        ["a1", "a2"] "n1" "ts2" exAnswersA)
      = some [⟨"a1", "att1", "Q1", "A"⟩, ⟨"a2", "att1", "Q2", "C"⟩] ∧
    notificationsAfter (submitAttempt exDb2q "cB" exTestA exStudent "att1" "ts"
        ["a1", "a2"] "n1" "ts2" exAnswersA)
      = some [⟨"n1", "cB", "s1 selesai Pretest A", "ts2"⟩] := by
  have h := C8_answers_and_notification exDb2q "cB" exTestA exStudent "att1" "ts"
    ["a1", "a2"] "n1" "ts2" exAnswersA (by decide) (by decide) (by decide)
  constructor
  · rw [h.1]
    decide
  · rw [h.2.2.2.2]
    decide

/-! ### Lexicographic order lemmas for the notifications query -/

theorem lexLeChars_cons (a b : Char) (as bs : List Char) :
    lexLeChars (a :: as) (b :: bs) = true ↔
      (a.toNat < b.toNat ∨ (a.toNat = b.toNat ∧ lexLeChars as bs = true)) := by
  simp only [lexLeChars]
  split_ifs with h1 h2
  · simp [h1]
  · simp only [Bool.false_eq_true, false_iff]
    intro hcon
    rcases hcon with hlt | ⟨heq, _⟩
    · omega
    · omega
  · have he : a.toNat = b.toNat := by omega
    simp [he, h1]

theorem lexLeChars_total : ∀ as bs : List Char,
    lexLeChars as bs = true ∨ lexLeChars bs as = true
  | [], _ => Or.inl rfl
  | _ :: _, [] => Or.inr rfl
  | a :: as, b :: bs => by
      rcases Nat.lt_trichotomy a.toNat b.toNat with h | h | h
      · exact Or.inl ((lexLeChars_cons a b as bs).mpr (Or.inl h))
      · rcases lexLeChars_total as bs with hr | hr
        · exact Or.inl ((lexLeChars_cons a b as bs).mpr (Or.inr ⟨h, hr⟩))
        · exact Or.inr ((lexLeChars_cons b a bs as).mpr (Or.inr ⟨h.symm, hr⟩))
      · exact Or.inr ((lexLeChars_cons b a bs as).mpr (Or.inl h))

theorem lexLeChars_trans : ∀ as bs cs : List Char,
    lexLeChars as bs = true → lexLeChars bs cs = true → lexLeChars as cs = true
  | [], _, _, _, _ => rfl
  | _ :: _, [], _, h1, _ => by simp [lexLeChars] at h1
  | _ :: _, _ :: _, [], _, h2 => by simp [lexLeChars] at h2
  | a :: as, b :: bs, c :: cs, h1, h2 => by
      rw [lexLeChars_cons] at h1 h2 ⊢
      rcases h1 with h1 | ⟨h1e, h1r⟩
      · rcases h2 with h2 | ⟨h2e, h2r⟩
        · exact Or.inl (lt_trans h1 h2)
        · exact Or.inl (by omega)
      · rcases h2 with h2 | ⟨h2e, h2r⟩
        · exact Or.inl (by omega)
        · exact Or.inr ⟨by omega, lexLeChars_trans as bs cs h1r h2r⟩

theorem strLe_total (a b : String) : strLe a b = true ∨ strLe b a = true :=
  lexLeChars_total a.data b.data

theorem strLe_trans (a b c : String) :
    strLe a b = true → strLe b c = true → strLe a c = true :=
  lexLeChars_trans a.data b.data c.data

theorem mem_insertDesc (n x : NotificationRow) : ∀ l : List NotificationRow,
    x ∈ insertDesc n l ↔ x = n ∨ x ∈ l
  | [] => by simp [insertDesc]
  | m :: ms => by
      simp only [insertDesc]
      split_ifs with h
      · simp only [List.mem_cons]
      · rw [List.mem_cons, mem_insertDesc n x ms, List.mem_cons]
        tauto

theorem pairwise_insertDesc (n : NotificationRow) : ∀ l : List NotificationRow,
    l.Pairwise (fun x y => strLe y.created_at x.created_at = true) →
    (insertDesc n l).Pairwise (fun x y => strLe y.created_at x.created_at = true)
  | [], _ => by simp [insertDesc]
  | m :: ms, hp => by
      obtain ⟨hm, hms⟩ := List.pairwise_cons.mp hp
      simp only [insertDesc]
      split_ifs with h
      · refine List.pairwise_cons.mpr ⟨?_, hp⟩
        intro x hx
        rcases List.mem_cons.mp hx with rfl | hx2
        · exact h
        · exact strLe_trans _ _ _ (hm x hx2) h
      · refine List.pairwise_cons.mpr ⟨?_, pairwise_insertDesc n ms hms⟩
        intro x hx
        rcases (mem_insertDesc n x ms).mp hx with rfl | hx2
        · rcases strLe_total x.created_at m.created_at with ht | ht
          · exact ht
          · exact absurd ht h
        · exact hm x hx2

theorem pairwise_sortDesc : ∀ l : List NotificationRow,
    (sortDescByCreated l).Pairwise (fun x y => strLe y.created_at x.created_at = true)
  | [] => List.Pairwise.nil
  | n :: ns => pairwise_insertDesc n (sortDescByCreated ns) (pairwise_sortDesc ns)

theorem mem_sortDesc (x : NotificationRow) : ∀ l : List NotificationRow,
    x ∈ sortDescByCreated l ↔ x ∈ l
  | [] => Iff.rfl
  | n :: ns => by
      rw [sortDescByCreated, mem_insertDesc, mem_sortDesc x ns, List.mem_cons]

/-- C9: the notifications query returns at most `lim` rows, ordered most
recent first (descending `created_at` under SQLite's TEXT comparison),
and all rows belong to the queried class. -/
theorem C9_list_notifications (db : DB) (classId : String) (lim : Nat) :
    (listNotifs db classId lim).length ≤ lim ∧
    (listNotifs db classId lim).Pairwise
      (fun x y => strLe y.created_at x.created_at = true) ∧
    ∀ r ∈ listNotifs db classId lim, r.class_id = classId := by
  refine ⟨List.length_take_le _ _, ?_, ?_⟩
  · exact (pairwise_sortDesc _).sublist (List.take_sublist _ _)
  · intro r hr
    have hr2 : r ∈ sortDescByCreated
        (db.notifications.filter (fun x => x.class_id == classId)) :=
      (List.take_sublist _ _).subset hr
    have hr3 := (mem_sortDesc r _).mp hr2
    have := List.of_mem_filter hr3
    simpa using this

/-- C9 witness: for the three-notification fixture a limit-2 query returns at
most two rows, and the returned later "c1" notification indeed belongs to
class "c1". -/
theorem C9_witness :
    (listNotifs exDb9 "c1" 2).length ≤ 2 ∧ exNotifB.class_id = "c1" := by
  have h := C9_list_notifications exDb9 "c1" 2
  exact ⟨h.1, h.2.2 exNotifB (by decide)⟩

end LMS
